import Mathlib

/-!
Verification of the weather-dashboard observation store and mock synthesizer.

The development shallowly embeds the logic of `database.py` (class
`WeatherDatabase`) and `weather_api.py` (class `WeatherAPI`) of the
repository.  Time is modelled as an integer number of minutes on a linear
timeline (`1440` minutes per day); SQLite's `datetime('now', '-N days')`
becomes `now - N * 1440`.  Randomness is modelled by explicit oracle
parameters: `random.randint(a, b)` becomes `a + seed % (b - a + 1)` for an
arbitrary natural seed (so every value of `[a, b]` is reachable and no other),
and `random.uniform(a, b)` becomes `a + t * (b - a)` for an arbitrary rational
parameter `t`.  The possibility of failure of the underlying SQLite engine is
modelled by an explicit `Except`-valued (or boolean) engine argument, so that
the `try/except` structure of the Python code can be reproduced exactly.
-/

/-- One row of the `weather_data` table (`database.py`, `init_database`).
The auto-assigned `id` column is omitted: no claim refers to it. -/
structure Row where
  city : String
  temperature : Rat
  humidity : Int
  pressure : Int
  wind_speed : Rat
  description : String
  timestamp : Int
deriving DecidableEq, Repr

/-- The state of the `weather_data` table, in insertion order. -/
abbrev Store := List Row

/-- A failure of the underlying SQLite engine (the exceptions caught by the
`try/except` blocks of `database.py`). -/
inductive DBError
  | ioFailure
  | queryFailure
deriving DecidableEq, Repr

/-- Minutes per day: the scale of the integer timeline. -/
def minutesPerDay : Int := 1440

/-- Ascending-timestamp order used by `ORDER BY timestamp`. -/
def tsLe (a b : Row) : Prop := a.timestamp ≤ b.timestamp

instance : DecidableRel tsLe := fun a b =>
  inferInstanceAs (Decidable (a.timestamp ≤ b.timestamp))

instance : IsTotal Row tsLe := ⟨fun a b => le_total a.timestamp b.timestamp⟩

instance : IsTrans Row tsLe := ⟨fun _ _ _ hab hbc => le_trans hab hbc⟩

/-- The row filter of `get_historical_data`:
`city = ? AND timestamp >= datetime('now', '-' || ? || ' days')`. -/
def histPred (now : Int) (city : String) (days : Int) (r : Row) : Bool :=
  decide (r.city = city ∧ now - days * minutesPerDay ≤ r.timestamp)

/-- `WeatherDatabase.get_historical_data` (`database.py` lines 64-87).
Selects the rows of `city` whose timestamp is at least `now - days` days,
ordered ascending by timestamp.  The surrounding `try/except` returns an
empty DataFrame if the engine fails, so the caller never sees an error. -/
def get_historical_data (now : Int) (store : Store) (city : String)
    (days : Int) (engine : Except DBError Unit) : Except DBError (List Row) :=
  match engine with
  | Except.ok _ =>
      Except.ok (List.insertionSort tsLe (store.filter (histPred now city days)))
  | Except.error _ => Except.ok []

/-- `WeatherDatabase.insert_weather_data` (`database.py` lines 44-62).
Appends one row stamped with the current time (`CURRENT_TIMESTAMP` default).
On an engine failure the `except` branch prints, rolls back (store is left
unchanged) and the function returns normally: no error reaches the caller. -/
def insert_weather_data (now : Int) (store : Store) (city : String)
    (temperature : Rat) (humidity pressure : Int) (wind_speed : Rat)
    (description : String) (engine : Except DBError Unit) :
    Except DBError Store :=
  match engine with
  | Except.ok _ =>
      Except.ok (store ++
        [{ city := city, temperature := temperature, humidity := humidity,
           pressure := pressure, wind_speed := wind_speed,
           description := description, timestamp := now }])
  | Except.error _ => Except.ok store

/-- The row filter of the `DELETE` of `delete_old_data`:
`timestamp < datetime('now', '-' || ? || ' days')`. -/
def oldPred (now : Int) (days_old : Int) (r : Row) : Bool :=
  decide (r.timestamp < now - days_old * minutesPerDay)

/-- `WeatherDatabase.delete_old_data` (`database.py` lines 148-169).
Deletes the rows older than `now - days_old` days and returns
`cursor.rowcount`, the number of deleted rows.  On an engine failure the
`except` branch rolls back (store unchanged) and returns `0`. -/
def delete_old_data (now : Int) (store : Store) (days_old : Int)
    (engine : Except DBError Unit) : Except DBError (Store × Nat) :=
  match engine with
  | Except.ok _ =>
      Except.ok (store.filter (fun r => ! oldPred now days_old r),
        (store.filter (oldPred now days_old)).length)
  | Except.error _ => Except.ok (store, 0)

/-- Python `round(x, 1)`: round to one decimal place, halves to even
(banker's rounding), on exact rationals. -/
def round1 (q : Rat) : Rat :=
  ((if q * 10 - ⌊q * 10⌋ < 1 / 2 then ⌊q * 10⌋
    else if q * 10 - ⌊q * 10⌋ > 1 / 2 then ⌊q * 10⌋ + 1
    else if ⌊q * 10⌋ % 2 = 0 then ⌊q * 10⌋
    else ⌊q * 10⌋ + 1 : Int) : Rat) / 10

/-- SQL `AVG` over a column: `NULL` on an empty set. -/
def sqlAvg (xs : List Rat) : Option Rat :=
  match xs with
  | [] => none
  | _ => some (xs.sum / (xs.length : Rat))

/-- SQL `MAX` over a rational column: `NULL` on an empty set. -/
def sqlMaxRat (xs : List Rat) : Option Rat := xs.max?

/-- SQL `MIN` over a rational column: `NULL` on an empty set. -/
def sqlMinRat (xs : List Rat) : Option Rat := xs.min?

/-- SQL `MAX` over the timestamp column: `NULL` on an empty set. -/
def sqlMaxInt (xs : List Int) : Option Int := xs.max?

/-- SQL `MIN` over the timestamp column: `NULL` on an empty set. -/
def sqlMinInt (xs : List Int) : Option Int := xs.min?

/-- The rows of one city, `WHERE city = ?`. -/
def cityRows (store : Store) (city : String) : List Row :=
  store.filter (fun r => decide (r.city = city))

/-- The single row produced by the aggregate `SELECT` of
`get_city_statistics`: `COUNT(*)`, `AVG/MAX/MIN(temperature)`,
`AVG(humidity)`, `AVG(pressure)`, `AVG(wind_speed)`, `MAX(timestamp)`. -/
structure AggRow where
  count : Nat
  avg_temp : Option Rat
  max_temp : Option Rat
  min_temp : Option Rat
  avg_humidity : Option Rat
  avg_pressure : Option Rat
  avg_wind : Option Rat
  last_update : Option Int
deriving DecidableEq, Repr

/-- Evaluate the aggregate `SELECT` of `get_city_statistics` on the rows of
the requested city. -/
def aggRow (rs : List Row) : AggRow :=
  { count := rs.length
    avg_temp := sqlAvg (rs.map Row.temperature)
    max_temp := sqlMaxRat (rs.map Row.temperature)
    min_temp := sqlMinRat (rs.map Row.temperature)
    avg_humidity := sqlAvg (rs.map (fun r => (r.humidity : Rat)))
    avg_pressure := sqlAvg (rs.map (fun r => (r.pressure : Rat)))
    avg_wind := sqlAvg (rs.map Row.wind_speed)
    last_update := sqlMaxInt (rs.map Row.timestamp) }

/-- The dictionary built by `get_city_statistics` (`database.py` 129-138). -/
structure CityStats where
  total_records : Nat
  avg_temperature : Rat
  max_temperature : Rat
  min_temperature : Rat
  avg_humidity : Rat
  avg_pressure : Rat
  avg_wind_speed : Rat
  last_update : Option Int
deriving DecidableEq, Repr

/-- The Python idiom `round(x, 1) if x else 0` applied to a nullable SQL
aggregate: `None` and `0` are falsy and give `0`, otherwise round. -/
def roundOrZero (o : Option Rat) : Rat :=
  match o with
  | none => 0
  | some v => if v = 0 then 0 else round1 v

/-- `WeatherDatabase.get_city_statistics` (`database.py` lines 105-146).
`cursor.fetchone()` on an aggregate query always yields one row, so the
`if result:` guard is always taken and the trailing `return {}` (modelled by
the `none` branch of the inner match) is unreachable; an empty city yields a
record with `total_records = 0` and zeroed aggregates.  The `except` branch
returns `{}` (modelled `none`). -/
def get_city_statistics (store : Store) (city : String)
    (engine : Except DBError Unit) : Except DBError (Option CityStats) :=
  match engine with
  | Except.error _ => Except.ok none
  | Except.ok _ =>
      let result : Option AggRow := some (aggRow (cityRows store city))
      match result with
      | some r =>
          Except.ok (some
            { total_records := r.count
              avg_temperature := roundOrZero r.avg_temp
              max_temperature := roundOrZero r.max_temp
              min_temperature := roundOrZero r.min_temp
              avg_humidity := roundOrZero r.avg_humidity
              avg_pressure := roundOrZero r.avg_pressure
              avg_wind_speed := roundOrZero r.avg_wind
              last_update := r.last_update })
      | none => Except.ok none

/-- The record built by `get_database_stats` (`database.py` 254-258). -/
structure DBStats where
  total_records : Nat
  total_cities : Nat
  date_range : Option Int × Option Int
deriving DecidableEq, Repr

/-- `WeatherDatabase.get_database_stats` (`database.py` lines 239-264):
`COUNT(*)`, `COUNT(DISTINCT city)` and the `(MIN, MAX)` timestamp span.
The `except` branch returns `{}` (modelled `none`). -/
def get_database_stats (store : Store) (engine : Except DBError Unit) :
    Except DBError (Option DBStats) :=
  match engine with
  | Except.error _ => Except.ok none
  | Except.ok _ =>
      Except.ok (some
        { total_records := store.length
          total_cities := ((store.map Row.city).dedup).length
          date_range := (sqlMinInt (store.map Row.timestamp),
            sqlMaxInt (store.map Row.timestamp)) })

/-- The seasonal base temperature range of `_get_mock_weather_data`
(`weather_api.py` lines 20-31), selected from the calendar month. -/
def seasonBand (month : Nat) : Int × Int :=
  if month = 12 ∨ month = 1 ∨ month = 2 then (-10, 10)
  else if month = 3 ∨ month = 4 ∨ month = 5 then (5, 25)
  else if month = 6 ∨ month = 7 ∨ month = 8 then (15, 35)
  else (5, 20)

/-- The per-city `(temp_adjust, humidity_adjust)` table of
`_get_mock_weather_data` (`weather_api.py` lines 34-44); unknown cities
default to `(0, 0)` via `dict.get`. -/
def city_adjustments (city : String) : Int × Int :=
  if city = "New York" then (0, 5)
  else if city = "London" then (-5, 10)
  else if city = "Tokyo" then (3, 15)
  else if city = "Sydney" then (8, -5)
  else if city = "Paris" then (-2, 0)
  else if city = "Berlin" then (-3, -2)
  else if city = "Mumbai" then (15, 25)
  else (0, 0)

/-- The six weather conditions of the `weather_patterns` table. -/
inductive Cond
  | clear
  | cloudy
  | rain
  | snow
  | fog
  | thunderstorm
deriving DecidableEq, Repr

/-- The dictionary key of each condition. -/
def Cond.name : Cond → String
  | .clear => "Clear"
  | .cloudy => "Cloudy"
  | .rain => "Rain"
  | .snow => "Snow"
  | .fog => "Fog"
  | .thunderstorm => "Thunderstorm"

/-- The selection weight of each condition (`weather_weights`,
`weather_api.py` lines 98-105). -/
def weather_weights : Cond → Rat
  | .clear => 3 / 10
  | .cloudy => 4 / 10
  | .rain => 15 / 100
  | .snow => 5 / 100
  | .fog => 5 / 100
  | .thunderstorm => 5 / 100

/-- The `temp_range` of each `weather_patterns` entry, as a function of the
seasonal base range and the city `temp_adjust`.  Note `Snow` ignores the
seasonal base. -/
def temp_range (c : Cond) (base : Int × Int) (tAdj : Int) : Int × Int :=
  match c with
  | .clear => (base.1 + 5 + tAdj, base.2 + tAdj)
  | .cloudy => (base.1 + tAdj, base.2 - 5 + tAdj)
  | .rain => (base.1 - 2 + tAdj, base.2 - 8 + tAdj)
  | .snow => (-10 + tAdj, 5 + tAdj)
  | .fog => (base.1 + tAdj, base.2 - 3 + tAdj)
  | .thunderstorm => (base.1 + tAdj, base.2 - 5 + tAdj)

/-- The `humidity_range` of each `weather_patterns` entry, as a function of
the city `humidity_adjust`. -/
def humidity_range (c : Cond) (hAdj : Int) : Int × Int :=
  match c with
  | .clear => (30 + hAdj, 60 + hAdj)
  | .cloudy => (50 + hAdj, 80 + hAdj)
  | .rain => (70 + hAdj, 95 + hAdj)
  | .snow => (60 + hAdj, 85 + hAdj)
  | .fog => (80 + hAdj, 98 + hAdj)
  | .thunderstorm => (75 + hAdj, 98 + hAdj)

/-- The `pressure_range` of each `weather_patterns` entry. -/
def pressure_range (c : Cond) : Int × Int :=
  match c with
  | .clear => (1010, 1030)
  | .cloudy => (1000, 1020)
  | .rain => (980, 1010)
  | .snow => (990, 1020)
  | .fog => (1005, 1025)
  | .thunderstorm => (970, 1005)

/-- The `wind_range` of each `weather_patterns` entry. -/
def wind_range (c : Cond) : Int × Int :=
  match c with
  | .clear => (0, 10)
  | .cloudy => (5, 15)
  | .rain => (10, 25)
  | .snow => (5, 20)
  | .fog => (0, 5)
  | .thunderstorm => (15, 35)

/-- `random.randint(lo, hi)` driven by an arbitrary seed: exactly the values
of `[lo, hi]` are reachable (for `lo ≤ hi`). -/
def randint (lo hi : Int) (seed : Nat) : Int :=
  lo + (seed : Int) % (hi - lo + 1)

/-- `random.uniform(lo, hi)` driven by a parameter `t` (in `[0, 1]` for an
in-range draw). -/
def runiform (lo hi : Rat) (t : Rat) : Rat :=
  lo + t * (hi - lo)

/-- The dictionary returned by `_get_mock_weather_data`
(`weather_api.py` lines 119-127). -/
structure MockObs where
  city : String
  temperature : Rat
  humidity : Int
  pressure : Int
  wind_speed : Rat
  description : String
  timestamp : Int
deriving DecidableEq, Repr

/-- `WeatherAPI._get_mock_weather_data` (`weather_api.py` lines 17-127).
The function takes only `city`; `month` is `datetime.now().month` and
`nowTs` is `datetime.now()`, both read from the ambient clock inside the
function — there is no timestamp parameter.  The condition drawn by
`random.choices` and the four range draws are passed as oracles. -/
def get_mock_weather_data (nowTs : Int) (month : Nat) (city : String)
    (cond : Cond) (tempT : Rat) (humSeed presSeed : Nat) (windT : Rat) :
    MockObs :=
  let base := seasonBand month
  let adj := city_adjustments city
  let tr := temp_range cond base adj.1
  let hr := humidity_range cond adj.2
  let pr := pressure_range cond
  let wr := wind_range cond
  { city := city
    temperature := round1 (runiform (tr.1 : Rat) (tr.2 : Rat) tempT)
    humidity := randint hr.1 hr.2 humSeed
    pressure := randint pr.1 pr.2 presSeed
    wind_speed := round1 (runiform (wr.1 : Rat) (wr.2 : Rat) windT)
    description := cond.name
    timestamp := nowTs }

/-- The fixed city table of `generate_sample_data` (`database.py` line 173). -/
def cities : List String :=
  ["New York", "London", "Tokyo", "Sydney", "Paris", "Berlin", "Mumbai"]

/-- The time-of-day temperature adjustment of `generate_sample_data`
(`database.py` lines 192-197): slot 0 (morning) `-2`, slot 1 (afternoon)
`+5`, every other slot (the `else` branch) `-1`. -/
def temp_adjust (slot : Nat) : Int :=
  if slot = 0 then -2
  else if slot = 1 then 5
  else -1

/-- The hour used for slot `record`: `8 + record * 6` (`database.py` line
209). -/
def slotHour (slot : Nat) : Nat := 8 + slot * 6

/-- The random oracles consumed by one bulk-loader record, indexed by
`(day, city, slot)`: the condition choice and range draws of the mock
generator, and the `random.randint(0, 59)` minute. -/
structure RandOracle where
  condOf : Nat → String → Nat → Cond
  tempT : Nat → String → Nat → Rat
  humSeed : Nat → String → Nat → Nat
  presSeed : Nat → String → Nat → Nat
  windT : Nat → String → Nat → Rat
  minuteSeed : Nat → String → Nat → Nat

/-- The ambient environment of one `generate_sample_data` call: the current
clock (`datetime.now()`, split into day number, month and an absolute
minute timestamp), the `days` argument, the random oracles, and whether the
engine accepts each individual `INSERT`. -/
structure GenEnv where
  nowTs : Int
  nowDay : Int
  nowMonth : Nat
  days : Nat
  rand : RandOracle
  insertOk : Nat → String → Nat → Bool

/-- The day number of the record generated in iteration `day`:
`datetime.now() - timedelta(days=days-day-1)` (`database.py` line 186). -/
def recordDay (env : GenEnv) (day : Nat) : Int :=
  env.nowDay - ((env.days : Int) - (day : Int) - 1)

/-- `current_date.replace(hour=8 + record * 6, minute=...)` (`database.py`
lines 208-211): `datetime.replace` demands an hour in `[0, 23]` and raises
`ValueError` otherwise, hence the `Option`. -/
def slotTimestamp (env : GenEnv) (day : Nat) (city : String) (slot : Nat) :
    Option Int :=
  if slotHour slot ≤ 23 then
    some (recordDay env day * minutesPerDay + (slotHour slot : Int) * 60 +
      ((randint 0 59 (env.rand.minuteSeed day city slot))))
  else none

/-- The mock observation drawn for record `(day, city, slot)`
(`database.py` lines 200-202): `generate_sample_data` calls
`_get_mock_weather_data(city)` with no timestamp, so the month used is
always the current month `env.nowMonth`, whatever day the record is
backdated to. -/
def synthRecord (env : GenEnv) (day : Nat) (city : String) (slot : Nat) :
    MockObs :=
  get_mock_weather_data env.nowTs env.nowMonth city
    (env.rand.condOf day city slot) (env.rand.tempT day city slot)
    (env.rand.humSeed day city slot) (env.rand.presSeed day city slot)
    (env.rand.windT day city slot)

/-- An error escaping `generate_sample_data`: the `ValueError` of
`datetime.replace` on an out-of-range hour, or an engine exception raised
by the unprotected `INSERT` of `_insert_with_timestamp`. -/
inductive GenError
  | badHour
  | insertFailed
deriving DecidableEq, Repr

/-- `WeatherDatabase._insert_with_timestamp` (`database.py` lines 226-237):
appends one row with an explicit timestamp.  There is no `try/except`, so
an engine failure propagates to the caller as an exception. -/
def insert_with_timestamp (store : Store) (city : String)
    (temperature : Rat) (humidity pressure : Int) (wind_speed : Rat)
    (description : String) (timestamp : Int) (engineOk : Bool) :
    Except GenError Store :=
  if engineOk then
    Except.ok (store ++
      [{ city := city, temperature := temperature, humidity := humidity,
         pressure := pressure, wind_speed := wind_speed,
         description := description, timestamp := timestamp }])
  else Except.error GenError.insertFailed

/-- The iteration space of the triple loop of `generate_sample_data`
(`database.py` lines 185-190), in loop order: days outermost, then the
fixed city list, then the `records_per_day` slots. -/
def genRecords (days rpd : Nat) : List (Nat × String × Nat) :=
  (List.range days).flatMap (fun day =>
    cities.flatMap (fun city =>
      (List.range rpd).map (fun slot => (day, city, slot))))

/-- The loop body of `generate_sample_data`, over the remaining iteration
triples.  For each record: draw the mock data, add the time-of-day
temperature adjustment, build the slot timestamp (a `ValueError` stops the
whole call), and insert (an engine failure also stops the whole call, the
rows already inserted staying committed).  The result pairs the final store
with the error that escaped, if any. -/
def genLoop (env : GenEnv) :
    List (Nat × String × Nat) → Store → Store × Option GenError
  | [], s => (s, none)
  | (day, city, slot) :: rest, s =>
      let w := synthRecord env day city slot
      match slotTimestamp env day city slot with
      | none => (s, some GenError.badHour)
      | some ts =>
          match insert_with_timestamp s w.city
              (w.temperature + (temp_adjust slot : Rat)) w.humidity
              w.pressure w.wind_speed w.description ts
              (env.insertOk day city slot) with
          | Except.ok s2 => genLoop env rest s2
          | Except.error e => (s, some e)

/-- `WeatherDatabase.generate_sample_data` (`database.py` lines 171-224):
first `DELETE FROM weather_data` (the prior store content is discarded),
then run the triple loop from the empty table. -/
def generate_sample_data (env : GenEnv) (rpd : Nat) (store : Store) :
    Store × Option GenError :=
  genLoop env (genRecords env.days rpd) []

/-- `Modelled from the spec:` what claim C8 requires of the synthesizer —
a `Synthesizer.Generate(city, timestamp?)` whose seasonal base range comes
from the supplied timestamp's calendar month (computed by a calendar
`monthOf` from the record's day number), as the spec says the Bulk Loader
does for backdated observations.  The source `_get_mock_weather_data` has
no such parameter; this definition exists only to be compared with
`synthRecord`. -/
def specSynthRecord (monthOf : Int → Nat) (env : GenEnv) (day : Nat)
    (city : String) (slot : Nat) : MockObs :=
  get_mock_weather_data env.nowTs (monthOf (recordDay env day)) city
    (env.rand.condOf day city slot) (env.rand.tempT day city slot)
    (env.rand.humSeed day city slot) (env.rand.presSeed day city slot)
    (env.rand.windT day city slot)

/-- Claim C1: for every city and every non-negative `days`,
`get_historical_data` returns (as a plain result, never an error) exactly
the stored rows of that city with timestamp at least `now - days` days,
in ascending timestamp order, and the empty list when no row matches. -/
theorem c1_get_historical_window (now : Int) (store : Store) (city : String)
    (days : Int) (hd : 0 ≤ days) :
    ∃ l, get_historical_data now store city days (Except.ok ()) = Except.ok l
      ∧ l.Perm (store.filter (histPred now city days))
      ∧ (∀ r, r ∈ l ↔ r ∈ store ∧ r.city = city ∧
          now - days * minutesPerDay ≤ r.timestamp)
      ∧ List.Sorted tsLe l
      ∧ ((∀ r ∈ store, ¬(r.city = city ∧
          now - days * minutesPerDay ≤ r.timestamp)) → l = []) := by
  refine ⟨_, rfl, List.perm_insertionSort _ _, ?_,
    List.sorted_insertionSort _ _, ?_⟩
  · intro r
    rw [(List.perm_insertionSort tsLe _).mem_iff, List.mem_filter]
    simp [histPred, and_assoc]
  · intro h
    have hnil : store.filter (histPred now city days) = [] := by
      rw [List.filter_eq_nil_iff]
      intro a ha
      simp only [histPred, decide_eq_true_eq]
      exact h a ha
    exact ((List.perm_insertionSort tsLe _).trans (hnil ▸ List.Perm.refl _)).eq_nil

/-- A concrete Paris observation used by several witnesses. -/
def rowParis : Row :=
  { city := "Paris", temperature := 20, humidity := 50, pressure := 1010,
    wind_speed := 5, description := "Clear", timestamp := 4000 }

/-- Witness for C1 at a concrete input. -/
theorem c1_witness :
    ∃ l, get_historical_data 5000 [rowParis] "Paris" 7 (Except.ok ())
        = Except.ok l
      ∧ l.Perm (List.filter (histPred 5000 "Paris" 7) [rowParis])
      ∧ (∀ r, r ∈ l ↔ r ∈ [rowParis] ∧ r.city = "Paris" ∧
          5000 - 7 * minutesPerDay ≤ r.timestamp)
      ∧ List.Sorted tsLe l
      ∧ ((∀ r ∈ [rowParis], ¬(r.city = "Paris" ∧
          5000 - 7 * minutesPerDay ≤ r.timestamp)) → l = []) :=
  c1_get_historical_window 5000 [rowParis] "Paris" 7 (by decide)

/-- Claim C2, counterexample: at a concrete engine failure none of the
three store operations surfaces an error to the caller — the insert
reports plain success with the store rolled back, the read returns an
empty list, the delete returns a zero count. -/
theorem c2_counterexample :
    insert_weather_data 0 [] "Paris" 20 50 1010 5 "Clear"
        (Except.error DBError.ioFailure) = Except.ok []
      ∧ get_historical_data 0 [] "Paris" 7 (Except.error DBError.ioFailure)
        = Except.ok []
      ∧ delete_old_data 0 [] 30 (Except.error DBError.ioFailure)
        = Except.ok ([], 0)
      ∧ ¬ ∃ e, insert_weather_data 0 [] "Paris" 20 50 1010 5 "Clear"
          (Except.error DBError.ioFailure) = Except.error e := by
  refine ⟨rfl, rfl, rfl, ?_⟩
  rintro ⟨e, h⟩
  exact Except.noConfusion h

/-- Claim C2 as amended: every store operation that fails in the engine
rolls back (the table is left unchanged) but swallows the failure instead
of raising it — the insert returns successfully with the store unchanged,
the historical read returns an empty result, and the delete returns a
zero count; no error kind ever reaches the caller. -/
theorem c2_amended (now : Int) (store : Store) (city : String)
    (temperature : Rat) (humidity pressure : Int) (wind_speed : Rat)
    (description : String) (days : Int) (e : DBError) :
    insert_weather_data now store city temperature humidity pressure
        wind_speed description (Except.error e) = Except.ok store
      ∧ get_historical_data now store city days (Except.error e)
        = Except.ok []
      ∧ delete_old_data now store days (Except.error e)
        = Except.ok (store, 0) :=
  ⟨rfl, rfl, rfl⟩

/-- Claim C3: a freshly inserted observation is returned by a subsequent
historical query for its city with any non-negative window, with all six
inserted fields intact (round-trip). -/
theorem c3_roundtrip (now : Int) (store : Store) (city : String)
    (temperature : Rat) (humidity pressure : Int) (wind_speed : Rat)
    (description : String) (days : Int) (hd : 0 ≤ days) :
    ∃ s2 l,
      insert_weather_data now store city temperature humidity pressure
        wind_speed description (Except.ok ()) = Except.ok s2
      ∧ get_historical_data now s2 city days (Except.ok ()) = Except.ok l
      ∧ ({ city := city, temperature := temperature, humidity := humidity,
           pressure := pressure, wind_speed := wind_speed,
           description := description, timestamp := now } : Row) ∈ l := by
  refine ⟨_, _, rfl, rfl, ?_⟩
  rw [(List.perm_insertionSort tsLe _).mem_iff, List.mem_filter]
  constructor
  · exact List.mem_append_right _ (List.mem_singleton_self _)
  · simp only [histPred, decide_eq_true_eq]
    have h2 : 0 ≤ days * minutesPerDay :=
      mul_nonneg hd (by simp [minutesPerDay])
    exact ⟨trivial, by omega⟩

/-- Witness for C3 at a concrete input. -/
theorem c3_witness :
    ∃ s2 l,
      insert_weather_data 5000 [] "Paris" 20 50 1010 5 "Clear"
        (Except.ok ()) = Except.ok s2
      ∧ get_historical_data 5000 s2 "Paris" 7 (Except.ok ()) = Except.ok l
      ∧ ({ city := "Paris", temperature := 20, humidity := 50,
           pressure := 1010, wind_speed := 5, description := "Clear",
           timestamp := 5000 } : Row) ∈ l :=
  c3_roundtrip 5000 [] "Paris" 20 50 1010 5 "Clear" 7 (by decide)

/-- The record that `get_city_statistics` actually returns for a city with
zero rows: count `0`, zeroed aggregates, no last update. -/
def zeroStats : CityStats :=
  { total_records := 0, avg_temperature := 0, max_temperature := 0,
    min_temperature := 0, avg_humidity := 0, avg_pressure := 0,
    avg_wind_speed := 0, last_update := none }

/-- Claim C4, counterexample: on a city with zero rows the code does not
return an empty/absent result — `fetchone` on the aggregate query yields a
row of `NULL`s, the `if result:` guard passes, and a non-empty zeroed
statistics record is returned. -/
theorem c4_counterexample :
    get_city_statistics [] "Paris" (Except.ok ()) = Except.ok (some zeroStats)
      ∧ Except.ok (some zeroStats)
        ≠ (Except.ok none : Except DBError (Option CityStats)) :=
  ⟨rfl, fun h => Option.noConfusion (Except.ok.inj h)⟩

/-- Claim C4 as amended: for every city with zero stored rows,
`get_city_statistics` returns (without any divide-by-zero: the `NULL`
aggregates are mapped to `0` by the `if x else 0` guards) a statistics
record with `total_records = 0`, all aggregate fields `0` and no last
update — not an empty/absent result. -/
theorem c4_amended (store : Store) (city : String)
    (h : cityRows store city = []) :
    get_city_statistics store city (Except.ok ())
      = Except.ok (some zeroStats) := by
  unfold get_city_statistics
  rw [h]
  rfl

/-- Witness for the amended C4 at a concrete input. -/
theorem c4_witness :
    get_city_statistics [] "Nowhere" (Except.ok ())
      = Except.ok (some zeroStats) :=
  c4_amended [] "Nowhere" rfl

/-- Claim C5: for every non-negative `days`, `delete_old_data` removes
exactly the rows strictly older than `now - days` days, leaves every other
row unchanged (same rows, same order), returns the count of removed rows,
and a second identical call removes `0` additional rows. -/
theorem c5_delete_old (now : Int) (store : Store) (days : Int)
    (hd : 0 ≤ days) :
    ∃ kept removed,
      delete_old_data now store days (Except.ok ())
        = Except.ok (kept, removed)
      ∧ kept = store.filter (fun r => ! oldPred now days r)
      ∧ removed = (store.filter (oldPred now days)).length
      ∧ kept.length + removed = store.length
      ∧ (∀ r, r ∈ kept ↔ r ∈ store ∧
          ¬ r.timestamp < now - days * minutesPerDay)
      ∧ delete_old_data now kept days (Except.ok ())
        = Except.ok (kept, 0) := by
  refine ⟨_, _, rfl, rfl, rfl, ?_, ?_, ?_⟩
  · have h := List.length_eq_length_filter_add (l := store) (oldPred now days)
    omega
  · intro r
    rw [List.mem_filter]
    simp [oldPred]
  · have h1 : (store.filter (fun r => ! oldPred now days r)).filter
        (oldPred now days) = [] := by
      simp [List.filter_filter]
    have h2 : (store.filter (fun r => ! oldPred now days r)).filter
        (fun r => ! oldPred now days r)
        = store.filter (fun r => ! oldPred now days r) := by
      simp [List.filter_filter]
    simp [delete_old_data, h1, h2]

/-- Witness for C5 at a concrete input. -/
theorem c5_witness :
    ∃ kept removed,
      delete_old_data 100000 [rowParis] 30 (Except.ok ())
        = Except.ok (kept, removed)
      ∧ kept = List.filter (fun r => ! oldPred 100000 30 r) [rowParis]
      ∧ removed = (List.filter (oldPred 100000 30) [rowParis]).length
      ∧ kept.length + removed = 1
      ∧ (∀ r, r ∈ kept ↔ r ∈ [rowParis] ∧
          ¬ r.timestamp < 100000 - 30 * minutesPerDay)
      ∧ delete_old_data 100000 kept 30 (Except.ok ())
        = Except.ok (kept, 0) :=
  c5_delete_old 100000 [rowParis] 30 (by decide)

/-- The `humidity_adjust` of every city (the seven fixed entries and the
`(0, 0)` default) lies in `[-5, 25]`. -/
theorem hAdj_bounds (city : String) :
    -5 ≤ (city_adjustments city).2 ∧ (city_adjustments city).2 ≤ 25 := by
  unfold city_adjustments
  repeat' split
  all_goals decide

/-- `randint lo hi` always lands in `[lo, hi]` when `lo ≤ hi`. -/
theorem randint_mem (lo hi : Int) (seed : Nat) (h : lo ≤ hi) :
    lo ≤ randint lo hi seed ∧ randint lo hi seed ≤ hi := by
  unfold randint
  have h1 : 0 ≤ (seed : Int) % (hi - lo + 1) :=
    Int.emod_nonneg _ (by omega)
  have h2 : (seed : Int) % (hi - lo + 1) < hi - lo + 1 :=
    Int.emod_lt_of_pos _ (by omega)
  omega

/-- Claim C7, counterexample: for Mumbai (humidity_adjust `+25`) under the
`Fog` condition the humidity range is `[105, 123]`, so the synthesized
humidity is `105` at the minimal draw — above `100`, refuting "the humidity
of a synthesized observation lies in [0, 100]" (indeed every Mumbai/Fog
draw exceeds 100). -/
theorem c7_counterexample :
    humidity_range Cond.fog (city_adjustments "Mumbai").2 = (105, 123)
      ∧ (get_mock_weather_data 0 6 "Mumbai" Cond.fog 0 0 0 0).humidity = 105
      ∧ ¬ (get_mock_weather_data 0 6 "Mumbai" Cond.fog 0 0 0 0).humidity
          ≤ 100 := by
  decide

/-- Claim C7 as amended: for every city (known or not), every month, every
drawn condition and every draw, the synthesized humidity lies in
`[25, 123]`: the range low end never drops below `25` (Sydney, `Clear`) but
the high end reaches `123` (Mumbai, `Fog`/`Thunderstorm`), so values above
`100` are possible — the store does not enforce `[0, 100]` and neither does
the synthesizer. -/
theorem c7_amended (nowTs : Int) (month : Nat) (city : String) (cond : Cond)
    (tempT : Rat) (humSeed presSeed : Nat) (windT : Rat) :
    25 ≤ (get_mock_weather_data nowTs month city cond tempT humSeed
        presSeed windT).humidity
      ∧ (get_mock_weather_data nowTs month city cond tempT humSeed
        presSeed windT).humidity ≤ 123 := by
  obtain ⟨h1, h2⟩ := hAdj_bounds city
  have hg : (get_mock_weather_data nowTs month city cond tempT humSeed
        presSeed windT).humidity
      = randint (humidity_range cond (city_adjustments city).2).1
          (humidity_range cond (city_adjustments city).2).2 humSeed := rfl
  rw [hg]
  have key : ∀ lo hi : Int, lo ≤ hi → 25 ≤ lo → hi ≤ 123 →
      25 ≤ randint lo hi humSeed ∧ randint lo hi humSeed ≤ 123 := by
    intro lo hi hle hlo hhi
    obtain ⟨ha, hb⟩ := randint_mem lo hi humSeed hle
    exact ⟨by omega, by omega⟩
  cases cond <;> simp only [humidity_range] <;>
    exact key _ _ (by omega) (by omega) (by omega)

/-- Degenerate random oracles: every draw is the minimal one. -/
def trivOracle : RandOracle :=
  { condOf := fun _ _ _ => Cond.clear, tempT := fun _ _ _ => 0,
    humSeed := fun _ _ _ => 0, presSeed := fun _ _ _ => 0,
    windT := fun _ _ _ => 0, minuteSeed := fun _ _ _ => 0 }

/-- A calendar fragment for the C8 scenario: day numbers below `100` fall
in month `5` (May), the others in month `6` (June). -/
def monthOfC8 (d : Int) : Nat := if d < 100 then 5 else 6

/-- A bulk-loader environment whose clock is day `100` (a June day) and
which backdates `30` days of records, so the earliest records fall in
May. -/
def envC8 : GenEnv :=
  { nowTs := 144000, nowDay := 100, nowMonth := 6, days := 30,
    rand := trivOracle, insertOk := fun _ _ _ => true }

/-- `round1` fixes every integer-valued rational. -/
theorem round1_intCast (z : Int) :
    round1 ((z : Int) : Rat) = ((z : Int) : Rat) := by
  have h : ((z : Int) : Rat) * 10 = ((z * 10 : Int) : Rat) := by
    push_cast
    ring
  unfold round1
  rw [h, Int.floor_intCast, if_pos (by norm_num)]
  push_cast
  ring

/-- `round1` fixes `18` (the Paris/Clear/June minimal draw). -/
theorem round1_eighteen : round1 18 = 18 := by
  rw [show (18 : Rat) = ((18 : Int) : Rat) by norm_num]
  exact round1_intCast 18

/-- `round1` fixes `8` (the Paris/Clear/May minimal draw). -/
theorem round1_eight : round1 8 = 8 := by
  rw [show (8 : Rat) = ((8 : Int) : Rat) by norm_num]
  exact round1_intCast 8

/-- Claim C8, counterexample: with the clock in June and a record backdated
30 days into May, the Bulk Loader's synthesis uses the current month's
summer band, not the supplied timestamp's spring band: the code's draw for
Paris/Clear at the minimal draw is `18` (from band `(15, 35)`) while the
spec-modelled synthesis from the record's own month gives `8` (from band
`(5, 25)`), and the two observations differ. -/
theorem c8_counterexample :
    monthOfC8 envC8.nowDay = envC8.nowMonth
      ∧ recordDay envC8 0 = 71
      ∧ monthOfC8 (recordDay envC8 0) = 5
      ∧ (synthRecord envC8 0 "Paris" 0).temperature = 18
      ∧ (specSynthRecord monthOfC8 envC8 0 "Paris" 0).temperature = 8
      ∧ synthRecord envC8 0 "Paris" 0
        ≠ specSynthRecord monthOfC8 envC8 0 "Paris" 0 := by
  have h1 : (synthRecord envC8 0 "Paris" 0).temperature = 18 := by
    norm_num +decide [synthRecord, get_mock_weather_data, envC8, trivOracle,
      seasonBand, city_adjustments, temp_range, runiform, round1_eighteen]
  have h2 : (specSynthRecord monthOfC8 envC8 0 "Paris" 0).temperature = 8 := by
    norm_num +decide [specSynthRecord, get_mock_weather_data, envC8,
      trivOracle, seasonBand, city_adjustments, temp_range, runiform,
      round1_eight, monthOfC8, recordDay]
  refine ⟨by decide, by decide, by decide, h1, h2, ?_⟩
  intro h
  rw [h, h2] at h1
  norm_num at h1

/-- Claim C8 as amended: `_get_mock_weather_data` accepts no timestamp at
all; the seasonal base range is always determined from the current month,
also for the Bulk Loader's backdated observations — synthesizing the same
city and slot with the same random draws yields the identical observation
whatever day the record is backdated to. -/
theorem c8_amended (env : GenEnv) (city : String) (slot : Nat)
    (day1 day2 : Nat)
    (hc : env.rand.condOf day1 city slot = env.rand.condOf day2 city slot)
    (ht : env.rand.tempT day1 city slot = env.rand.tempT day2 city slot)
    (hh : env.rand.humSeed day1 city slot = env.rand.humSeed day2 city slot)
    (hp : env.rand.presSeed day1 city slot
      = env.rand.presSeed day2 city slot)
    (hw : env.rand.windT day1 city slot = env.rand.windT day2 city slot) :
    synthRecord env day1 city slot = synthRecord env day2 city slot := by
  unfold synthRecord
  rw [hc, ht, hh, hp, hw]

/-- Witness for the amended C8 at a concrete input. -/
theorem c8_witness :
    synthRecord envC8 0 "Paris" 0 = synthRecord envC8 29 "Paris" 0 :=
  c8_amended envC8 "Paris" 0 0 29 rfl rfl rfl rfl rfl

/-- Every triple enumerated by `genRecords` has its slot below
`records_per_day`. -/
theorem genRecords_slot_lt (days rpd : Nat) :
    ∀ x ∈ genRecords days rpd, x.2.2 < rpd := by
  intro x hx
  simp only [genRecords, List.mem_flatMap, List.mem_map, List.mem_range] at hx
  obtain ⟨day, hday, city, hcity, slot, hslot, rfl⟩ := hx
  exact hslot

/-- While every remaining slot has a representable hour and the engine
accepts every insert, `genLoop` finishes without error and appends exactly
one row per iteration triple. -/
theorem genLoop_ok (env : GenEnv) (l : List (Nat × String × Nat)) (s : Store)
    (hsl : ∀ x ∈ l, slotHour x.2.2 ≤ 23)
    (hok : ∀ x ∈ l, env.insertOk x.1 x.2.1 x.2.2 = true) :
    (genLoop env l s).2 = none
      ∧ (genLoop env l s).1.length = s.length + l.length := by
  induction l generalizing s with
  | nil => simp [genLoop]
  | cons x rest ih =>
    obtain ⟨day, city, slot⟩ := x
    have h1 : slotHour slot ≤ 23 := hsl _ (List.mem_cons_self _ _)
    have h2 : env.insertOk day city slot = true :=
      hok _ (List.mem_cons_self _ _)
    simp only [genLoop, slotTimestamp, if_pos h1, insert_with_timestamp, h2,
      if_true]
    constructor
    · exact (ih _ (fun x hx => hsl x (List.mem_cons_of_mem _ hx))
        (fun x hx => hok x (List.mem_cons_of_mem _ hx))).1
    · rw [(ih _ (fun x hx => hsl x (List.mem_cons_of_mem _ hx))
        (fun x hx => hok x (List.mem_cons_of_mem _ hx))).2]
      simp only [List.length_append, List.length_cons, List.length_nil]
      omega

/-- The environment of the C6 scenario: 7 days, engine always accepts. -/
def envC6 : GenEnv :=
  { nowTs := 0, nowDay := 100, nowMonth := 6, days := 7, rand := trivOracle,
    insertOk := fun _ _ _ => true }

/-- Claim C6: `generate_sample_data` with `days = 7` and
`records_per_day = 3` over the fixed 7-city table first clears the table
(its result does not depend on the prior store content, so repeated
invocations do not accumulate), finishes without error, and leaves exactly
`7 * 7 * 3 = 147` observations, so `get_database_stats` reports
`total_records = 147`. -/
theorem c6_populate (env : GenEnv) (store : Store) (hdays : env.days = 7)
    (hok : ∀ d c s, env.insertOk d c s = true) :
    generate_sample_data env 3 store = generate_sample_data env 3 []
      ∧ (generate_sample_data env 3 store).2 = none
      ∧ (generate_sample_data env 3 store).1.length = 147
      ∧ ∃ st, get_database_stats (generate_sample_data env 3 store).1
          (Except.ok ()) = Except.ok (some st) ∧ st.total_records = 147 := by
  obtain ⟨ha, hb⟩ := genLoop_ok env (genRecords env.days 3) []
    (by
      intro x hx
      have hs := genRecords_slot_lt env.days 3 x hx
      unfold slotHour
      omega)
    (fun x hx => hok x.1 x.2.1 x.2.2)
  have hlen : (genRecords env.days 3).length = 147 := by
    rw [hdays]
    rfl
  have hb2 : (genLoop env (genRecords env.days 3) []).1.length = 147 := by
    rw [hb]
    simp [hlen]
  exact ⟨rfl, ha, hb2, ⟨_, rfl, hb2⟩⟩

/-- Witness for C6 at a concrete input (a non-empty prior store). -/
theorem c6_witness :
    generate_sample_data envC6 3 [rowParis] = generate_sample_data envC6 3 []
      ∧ (generate_sample_data envC6 3 [rowParis]).2 = none
      ∧ (generate_sample_data envC6 3 [rowParis]).1.length = 147
      ∧ ∃ st, get_database_stats (generate_sample_data envC6 3 [rowParis]).1
          (Except.ok ()) = Except.ok (some st) ∧ st.total_records = 147 :=
  c6_populate envC6 [rowParis] rfl (fun _ _ _ => rfl)

/-- The environment of the C9 counterexample: one day, engine always
accepts, but four records per day are requested. -/
def envC9 : GenEnv :=
  { nowTs := 0, nowDay := 100, nowMonth := 6, days := 1, rand := trivOracle,
    insertOk := fun _ _ _ => true }

/-- Claim C9, counterexample: with `records_per_day = 4` the fourth slot
computes hour `8 + 3 * 6 = 26`, `datetime.replace` raises `ValueError`, and
the bulk population aborts after the first three inserts instead of
completing with a neutral adjustment. -/
theorem c9_counterexample :
    slotHour 3 = 26
      ∧ (generate_sample_data envC9 4 []).2 = some GenError.badHour
      ∧ (generate_sample_data envC9 4 []).1.length = 3 := by
  refine ⟨rfl, ?_, ?_⟩ <;> decide

/-- Claim C9 as amended: slots 0, 1, 2 map to hours 08:00/14:00/20:00 with
temperature adjustments `-2`, `+5`, `-1`; every slot of index 3 or greater
reuses the `-1` evening adjustment (not a neutral one) but computes an hour
of at least 26, which is un-representable, so `generate_sample_data`
completes without error only when `records_per_day ≤ 3` (given an engine
that accepts every insert). -/
theorem c9_amended :
    slotHour 0 = 8 ∧ slotHour 1 = 14 ∧ slotHour 2 = 20
      ∧ temp_adjust 0 = -2 ∧ temp_adjust 1 = 5 ∧ temp_adjust 2 = -1
      ∧ (∀ slot, 3 ≤ slot → temp_adjust slot = -1 ∧ 23 < slotHour slot)
      ∧ ∀ (env : GenEnv) (rpd : Nat) (store : Store), rpd ≤ 3 →
          (∀ d c s, env.insertOk d c s = true) →
          (generate_sample_data env rpd store).2 = none := by
  refine ⟨rfl, rfl, rfl, rfl, rfl, rfl, ?_, ?_⟩
  · intro slot h3
    constructor
    · unfold temp_adjust
      rw [if_neg (by omega), if_neg (by omega)]
    · unfold slotHour
      omega
  · intro env rpd store hrpd hok
    exact (genLoop_ok env (genRecords env.days rpd) []
      (by
        intro x hx
        have hs := genRecords_slot_lt env.days rpd x hx
        unfold slotHour
        omega)
      (fun x hx => hok x.1 x.2.1 x.2.2)).1

/-- Witness for the amended C9 at a concrete input. -/
theorem c9_witness :
    (generate_sample_data envC9 3 []).2 = none :=
  c9_amended.2.2.2.2.2.2.2 envC9 3 [] (by decide) (fun _ _ _ => rfl)

/-- The environment of the C10 counterexample: the engine rejects exactly
the very first record (day 0, New York, slot 0) and accepts all others. -/
def envC10 : GenEnv :=
  { nowTs := 0, nowDay := 100, nowMonth := 6, days := 1, rand := trivOracle,
    insertOk := fun d c s => decide (¬(d = 0 ∧ c = "New York" ∧ s = 0)) }

/-- Claim C10, counterexample: `_insert_with_timestamp` has no exception
handling, so when the engine rejects a single record the whole generation
aborts — with the first of the 14 records failing, zero rows are stored and
the remaining 13 records (which the engine would have accepted) are never
synthesized or inserted. -/
theorem c10_counterexample :
    envC10.insertOk 0 "New York" 0 = false
      ∧ (genRecords envC10.days 2).length = 14
      ∧ (generate_sample_data envC10 2 []).2 = some GenError.insertFailed
      ∧ (generate_sample_data envC10 2 []).1 = [] := by
  refine ⟨?_, ?_, ?_, ?_⟩ <;> decide

/-- Claim C10 as amended: a failing insert is not recovered — as soon as
one record's insert fails (on a slot with a representable hour), `genLoop`
stops with the error and none of the remaining records is processed; the
store keeps only the rows inserted before the failure. -/
theorem c10_amended (env : GenEnv) (day : Nat) (city : String) (slot : Nat)
    (rest : List (Nat × String × Nat)) (s : Store)
    (hsl : slotHour slot ≤ 23)
    (hfail : env.insertOk day city slot = false) :
    genLoop env ((day, city, slot) :: rest) s
      = (s, some GenError.insertFailed) := by
  simp [genLoop, slotTimestamp, if_pos hsl, insert_with_timestamp, hfail]

/-- Witness for the amended C10 at a concrete input. -/
theorem c10_witness :
    genLoop envC10 [(0, "New York", 0)] [] = ([], some GenError.insertFailed) :=
  c10_amended envC10 0 "New York" 0 [] [] (by decide) (by decide)
